import Mathlib

/-!
A shallow embedding of the microzoo processor core plumbing: the Mapper
normalization helpers (common/Mapper.ts), the Process Runner
(common/spawn.ts), the global configuration module
(config/globalConfig.ts), the CLI command action wrappers (index.ts) and
the port-forward tunnel supervisor (deployment/PortForwardManager.ts),
together with theorems settling the specification claims against them.
-/

namespace Microzoo

/-- Model of JS String.prototype.toLowerCase as it acts on the ASCII
diagram names handled by the processor: each character is lower-cased. -/
def Mapper.lowerChars (s : List Char) : List Char :=
  s.map Char.toLower

/-- Model of the JS call `replace(" ", "")` inside `Mapper.toId`: with a
string pattern, JS String.prototype.replace replaces only the FIRST
occurrence, so exactly one space character (the first) is removed. -/
def Mapper.replaceFirstSpace : List Char → List Char
  | [] => []
  | c :: cs => if c = ' ' then cs else c :: Mapper.replaceFirstSpace cs

/-- `Mapper.toId` on the underlying character list:
`name.toLowerCase().replace(" ", "")`. -/
def Mapper.toIdChars (s : List Char) : List Char :=
  Mapper.replaceFirstSpace (Mapper.lowerChars s)

/-- `Mapper.toId` from Mapper.ts: lower-case the display name, then
remove the first space (JS `replace(" ", "")`). -/
def Mapper.toId (name : String) : String :=
  ⟨Mapper.toIdChars name.data⟩

/-- `Mapper.toUrlProtocol` from Mapper.ts: a switch with a single case
returning "http" for "http-rest"; every other input falls through the
switch and the function returns undefined, modelled as none. -/
def Mapper.toUrlProtocol (protocol : String) : Option String :=
  if protocol = "http-rest" then some "http" else none

/-- `ChildProcessResult` from common/spawn.ts. The optional JS `error`
field is modelled by a Bool recording whether an Error object is
attached. -/
structure ChildProcessResult where
  stdout : String
  stderr : String
  exitCode : Option Int
  error : Bool
deriving DecidableEq, Repr

/-- One data event delivered by the child process streams to a
StreamCollector before the close event. -/
inductive StreamEvent where
  | out (data : String)
  | err (data : String)
deriving DecidableEq, Repr

/-- The private stdout/stderr accumulators of a StreamCollector. -/
structure CollectorState where
  stdout : String
  stderr : String
deriving DecidableEq, Repr

/-- A StreamCollector starts with both accumulators empty. -/
def StreamCollector.init : CollectorState :=
  ⟨"", ""⟩

/-- `StreamCollector.handleStdout` / `handleStderr`: append the chunk to
the matching accumulator. -/
def StreamCollector.handleData (st : CollectorState) : StreamEvent → CollectorState
  | .out data => ⟨st.stdout ++ data, st.stderr⟩
  | .err data => ⟨st.stdout, st.stderr ++ data⟩

/-- Accumulator state after a sequence of stream data events. -/
def StreamCollector.collect (events : List StreamEvent) : CollectorState :=
  events.foldl StreamCollector.handleData StreamCollector.init

/-- `StreamCollector.handleClose`: on close, build the final result; a
truthy (non-zero) exit code attaches an Error object, a zero exit code
yields a clean result. -/
def StreamCollector.handleClose (st : CollectorState) (exitCode : Nat) : ChildProcessResult :=
  if exitCode = 0 then
    ⟨st.stdout, st.stderr, some (exitCode : Int), false⟩
  else
    ⟨st.stdout, st.stderr, some (exitCode : Int), true⟩

/-- How one spawned command behaves: either the spawn call itself throws
(executable cannot be started), or the child runs, emits stream events
and closes with an exit code. -/
inductive SpawnBehavior where
  | launchFailure
  | runs (events : List StreamEvent) (exitCode : Nat)

/-- The result `spawn` feeds to `callbacks.onExit` from its catch block
when the spawn call throws: empty streams, exit code -1, error attached. -/
def spawnLaunchFailureResult : ChildProcessResult :=
  ⟨"", "", some (-1), true⟩

/-- The final `ChildProcessResult` handed to the collector's onExit for a
given spawn behavior: the catch-block result on launch failure, otherwise
the `handleClose` result over the collected streams. -/
def captureResult : SpawnBehavior → ChildProcessResult
  | .launchFailure => spawnLaunchFailureResult
  | .runs events exitCode => StreamCollector.handleClose (StreamCollector.collect events) exitCode

/-- What a caller of capture mode can observe: the promise resolves, the
promise rejects, or an error propagates synchronously instead of through
the future. The code as written only ever produces the first two. -/
inductive CaptureOutcome where
  | resolved (result : ChildProcessResult)
  | rejected (result : ChildProcessResult)
  | thrownSync (result : ChildProcessResult)
deriving DecidableEq, Repr

/-- The settling logic of `spawn.promise`: reject exactly when
`result.error` is set, otherwise resolve. -/
def promiseSettle (result : ChildProcessResult) : CaptureOutcome :=
  if result.error then .rejected result else .resolved result

/-- `spawn.promise`: spawn with a StreamCollector whose onExit settles
the promise from the final result. -/
def spawnPromise (behavior : SpawnBehavior) : CaptureOutcome :=
  promiseSettle (captureResult behavior)

/-- A flat key-to-string mapping, as parsed from the JSON config file and
as held by the `globalConfig` module binding. -/
abbrev Config := List (String × String)

/-- The module-initial value of the mutable `globalConfig` binding in
config/globalConfig.ts: the built-in defaults. -/
def globalConfigInit : Config :=
  [("container-cli", "docker"), ("compose-cli", "docker compose")]

/-- `setGlobalConfig`: reassigns the module-level binding wholesale
(`globalConfig = config`); the prior value is discarded, not merged. -/
def setGlobalConfig (config : Config) (_prior : Config) : Config :=
  config

/-- `getGlobalConfig`: reads the current module-level binding. -/
def getGlobalConfig (current : Config) : Config :=
  current

/-- The commander `preAction` hook in index.ts: read the config file,
JSON-parse it to a flat mapping, and install it via `setGlobalConfig`. -/
def preActionHook (fileConfig : Config) (current : Config) : Config :=
  setGlobalConfig fileConfig current

/-- Effective value of a key: JS property access on the current
globalConfig object. -/
def configLookup (key : String) (current : Config) : Option String :=
  current.lookup key

/-- Outcome of the pipeline promise behind one subcommand
(compile/deploy/test/drop): it fulfills, or rejects with a reason. -/
inductive CommandResult where
  | ok
  | failed (reason : String)
deriving DecidableEq, Repr

/-- Observable end state of the CLI process: the exit code the process
terminates with and what was written to the console. -/
structure ProcessOutcome where
  exitCode : Nat
  logged : List String
deriving DecidableEq, Repr

/-- The action wrapper shared by all four subcommand builders in
index.ts: `cmd(...).catch(reason => console.log(reason))`. A rejection is
logged to the console and swallowed; no process.exit call and no
process.exitCode assignment exists anywhere, so the process terminates
with the default exit code 0 in both cases. -/
def commandAction : CommandResult → ProcessOutcome
  | .ok => ⟨0, []⟩
  | .failed reason => ⟨0, [reason]⟩

/-- Modelled from the spec: the `drop` command implementation
(src/command/drop.ts) is not among the provided sources; per the spec,
invoking drop on a source that was never compiled rejects its pipeline
promise with a "no artifact found" error. -/
def dropNeverCompiledResult : CommandResult :=
  .failed "no artifact found"

/-- Character-list test that `needle` is a leading segment of `hay`. -/
def startsWithChars : List Char → List Char → Bool
  | [], _ => true
  | _ :: _, [] => false
  | a :: ta, b :: tb => a = b && startsWithChars ta tb

/-- Character-list substring test, modelling the JS check
`data.toString().indexOf(phrase) !== -1`. -/
def containsChars (needle : List Char) : List Char → Bool
  | [] => startsWithChars needle []
  | c :: rest => startsWithChars needle (c :: rest) || containsChars needle rest

/-- The known failure phrase scanned for on each tunnel's stderr. -/
def failurePhrase : String :=
  "error forwarding port"

/-- `PortForwardCallbacks.handleStderr`: if the stderr chunk contains the
failure phrase, invoke the onExit callback with an error result (empty
stdout, the chunk as stderr, exit code -1, Error attached); otherwise
only log the chunk and do nothing more. -/
def PortForwardCallbacks.handleStderr (data : String) : Option ChildProcessResult :=
  if containsChars failurePhrase.data data.data then
    some ⟨"", data, some (-1), true⟩
  else
    none

/-- Supervisor state for one `PortForwardManager.start` call: the shared
`childProcesses` list captured by every tunnel's onExit closure (spawn
may return undefined, hence Option entries), and the pids handed to
treeKill so far. -/
structure PFState where
  childProcesses : List (Option Nat)
  killed : List Nat
deriving DecidableEq, Repr

/-- `PortForwardManager.start`: launch one subprocess per port info; the
shared list holds the spawn results and nothing has been killed yet.
Stderr events are delivered only after start has returned. -/
def PortForwardManager.start (pids : List (Option Nat)) : PFState :=
  ⟨pids, []⟩

/-- The onExit closure built inside `start`: on a result carrying an
error while the shared list is non-empty, copy the list, empty it, and
stop (tree-kill) every copied process that exists
(`processes.filter(process => process)`); otherwise do nothing. -/
def PortForwardManager.onFailure (result : ChildProcessResult) (st : PFState) : PFState :=
  if result.error && !st.childProcesses.isEmpty then
    ⟨[], st.killed ++ st.childProcesses.filterMap id⟩
  else
    st

/-- One stderr data event on some tunnel subprocess: the callbacks scan
the chunk and, when the failure phrase matches, run the shared group
failure handler. -/
def PortForwardManager.stderrEvent (data : String) (st : PFState) : PFState :=
  match PortForwardCallbacks.handleStderr data with
  | some result => PortForwardManager.onFailure result st
  | none => st

/-- A sequence of stderr data events applied in order. -/
def PortForwardManager.applyEvents : List String → PFState → PFState
  | [], st => st
  | d :: ds, st => PortForwardManager.applyEvents ds (PortForwardManager.stderrEvent d st)

/-! Helper lemmas shared by the claim theorems. -/

theorem toLower_space : Char.toLower ' ' = ' ' := by
  decide

theorem lowerChars_append_space (a b : List Char) :
    Mapper.lowerChars (a ++ ' ' :: b) = Mapper.lowerChars a ++ ' ' :: Mapper.lowerChars b := by
  simp [Mapper.lowerChars, toLower_space]

theorem replaceFirstSpace_append_space (la lb : List Char) (h : ' ' ∉ la) :
    Mapper.replaceFirstSpace (la ++ ' ' :: lb) = la ++ lb := by
  induction la with
  | nil => simp [Mapper.replaceFirstSpace]
  | cons c cs ih =>
    have hc : ¬ c = ' ' := fun hh => h (by simp [hh])
    have hcs : ' ' ∉ cs := fun hm => h (by simp [hm])
    simp [Mapper.replaceFirstSpace, hc, ih hcs]

theorem stderrEvent_empty_stable (data : String) (st : PFState)
    (h : st.childProcesses = []) :
    PortForwardManager.stderrEvent data st = st := by
  unfold PortForwardManager.stderrEvent
  cases PortForwardCallbacks.handleStderr data with
  | none => rfl
  | some result => simp [PortForwardManager.onFailure, h]

theorem applyEvents_empty_stable (more : List String) (st : PFState)
    (h : st.childProcesses = []) :
    PortForwardManager.applyEvents more st = st := by
  induction more generalizing st with
  | nil => rfl
  | cons d ds ih =>
    show PortForwardManager.applyEvents ds (PortForwardManager.stderrEvent d st) = st
    rw [stderrEvent_empty_stable d st h]
    exact ih st h

theorem stderrEvent_start_empties (pids : List (Option Nat)) (data : String)
    (hphrase : containsChars failurePhrase.data data.data = true) :
    (PortForwardManager.stderrEvent data (PortForwardManager.start pids)).childProcesses = [] := by
  cases pids <;>
    simp [PortForwardManager.stderrEvent, PortForwardCallbacks.handleStderr, hphrase,
      PortForwardManager.onFailure, PortForwardManager.start]

/-! Claim theorems. -/

/-- C3 counterexample: `Mapper.toId` does not strip all whitespace — only
the first space is removed, so the display name "A B C" normalizes to
"ab c", which is neither the fully stripped "abc" nor the id of the name
"ABC" that differs from it only in embedded whitespace. -/
theorem toId_does_not_strip_all_whitespace :
    Mapper.toId "A B C" ≠ "abc" ∧ Mapper.toId "A B C" ≠ Mapper.toId "ABC" := by
  decide

/-- C3 (amended): `Mapper.toId` lower-cases the display name and removes
only the FIRST space character (JS `replace` with a string pattern
replaces one occurrence). Consequently two names equal after
lower-casing share an id, and the single leading space of a name whose
head segment is space-free is removed while every later space is kept. -/
theorem toId_lowercases_and_strips_first_space_only
    (s t a b : List Char)
    (hcase : Mapper.lowerChars s = Mapper.lowerChars t)
    (hns : ' ' ∉ Mapper.lowerChars a) :
    Mapper.toIdChars s = Mapper.toIdChars t ∧
    Mapper.toIdChars (a ++ ' ' :: b) = Mapper.lowerChars a ++ Mapper.lowerChars b := by
  constructor
  · unfold Mapper.toIdChars
    rw [hcase]
  · unfold Mapper.toIdChars
    rw [lowerChars_append_space, replaceFirstSpace_append_space _ _ hns]

/-- C3 witness: the amended theorem instantiated at "AB" versus "ab" and
at the split name "x" ++ " " ++ "y z". -/
theorem toId_lowercases_and_strips_first_space_only_witness :
    Mapper.toIdChars ['A', 'B'] = Mapper.toIdChars ['a', 'b'] ∧
    Mapper.toIdChars (['x'] ++ ' ' :: ['y', ' ', 'z']) =
      Mapper.lowerChars ['x'] ++ Mapper.lowerChars ['y', ' ', 'z'] :=
  toId_lowercases_and_strips_first_space_only ['A', 'B'] ['a', 'b'] ['x'] ['y', ' ', 'z']
    (by decide) (by decide)

/-- C9: `Mapper.toUrlProtocol` returns the scheme "http" exactly on the
protocol string "http-rest" and returns none on every other input. -/
theorem toUrlProtocol_http_rest_only :
    Mapper.toUrlProtocol "http-rest" = some "http" ∧
    ∀ protocol : String, protocol ≠ "http-rest" → Mapper.toUrlProtocol protocol = none := by
  constructor
  · decide
  · intro protocol hp
    simp [Mapper.toUrlProtocol, hp]

/-- C9 witness: the theorem applied at the concrete inputs "jdbc" and
"http", both of which map to none. -/
theorem toUrlProtocol_http_rest_only_witness :
    Mapper.toUrlProtocol "jdbc" = none ∧ Mapper.toUrlProtocol "http" = none :=
  ⟨toUrlProtocol_http_rest_only.2 "jdbc" (by decide),
   toUrlProtocol_http_rest_only.2 "http" (by decide)⟩

/-- C7: for every run of a spawned command in capture mode, the promise
resolves to the collected stdout, the collected stderr and the exit code
exactly when the process exits with code zero, and rejects with a result
carrying the same fields plus an error exactly when the exit code is
non-zero. -/
theorem capture_promise_settles_by_exit_code (events : List StreamEvent) (c : Nat) :
    (spawnPromise (SpawnBehavior.runs events c) =
      CaptureOutcome.resolved
        ⟨(StreamCollector.collect events).stdout, (StreamCollector.collect events).stderr,
          some (c : Int), false⟩ ↔ c = 0) ∧
    (spawnPromise (SpawnBehavior.runs events c) =
      CaptureOutcome.rejected
        ⟨(StreamCollector.collect events).stdout, (StreamCollector.collect events).stderr,
          some (c : Int), true⟩ ↔ c ≠ 0) := by
  by_cases h : c = 0 <;>
    simp [spawnPromise, captureResult, StreamCollector.handleClose, promiseSettle, h]

/-- C2 counterexample: a launch failure (the spawn call throwing) is
delivered to a caller of the capture-mode promise as a REJECTED future
carrying the catch-block result, not as a synchronously propagated
distinct error. -/
theorem launch_failure_is_rejected_future :
    spawnPromise SpawnBehavior.launchFailure =
      CaptureOutcome.rejected spawnLaunchFailureResult ∧
    spawnPromise SpawnBehavior.launchFailure ≠
      CaptureOutcome.thrownSync spawnLaunchFailureResult := by
  decide

/-- C2 (amended): a launch failure reaches the capture-mode caller
through the same rejection path as a tool failure, but as a
distinguishable rejection: its result has exit code -1 with empty
streams, while a tool that ran and exited with a non-zero code is
rejected with that non-negative exit code and the collected streams, so
the two rejection classes never carry the same exit code. -/
theorem launch_failure_rejects_distinguishably (events : List StreamEvent) (c : Nat)
    (hc : c ≠ 0) :
    spawnPromise SpawnBehavior.launchFailure =
      CaptureOutcome.rejected spawnLaunchFailureResult ∧
    spawnPromise (SpawnBehavior.runs events c) =
      CaptureOutcome.rejected
        ⟨(StreamCollector.collect events).stdout, (StreamCollector.collect events).stderr,
          some (c : Int), true⟩ ∧
    spawnLaunchFailureResult.exitCode ≠ some (c : Int) := by
  refine ⟨by decide, ?_, ?_⟩
  · simp [spawnPromise, captureResult, StreamCollector.handleClose, promiseSettle, hc]
  · simp [spawnLaunchFailureResult]

/-- C2 witness: the amended theorem instantiated at a process with no
stream output and exit code 2. -/
theorem launch_failure_rejects_distinguishably_witness :
    spawnPromise SpawnBehavior.launchFailure =
      CaptureOutcome.rejected spawnLaunchFailureResult ∧
    spawnPromise (SpawnBehavior.runs [] 2) =
      CaptureOutcome.rejected
        ⟨(StreamCollector.collect []).stdout, (StreamCollector.collect []).stderr,
          some ((2 : Nat) : Int), true⟩ ∧
    spawnLaunchFailureResult.exitCode ≠ some ((2 : Nat) : Int) :=
  launch_failure_rejects_distinguishably [] 2 (by decide)

/-- C1 counterexample: a drop invoked on a never-compiled source rejects
its pipeline promise; the shared action wrapper catches the rejection,
logs the reason, and the process still terminates with exit code 0 —
contradicting the claimed non-zero exit on failure. -/
theorem drop_uncompiled_exits_zero :
    (commandAction dropNeverCompiledResult).exitCode = 0 ∧
    (commandAction dropNeverCompiledResult).logged = ["no artifact found"] := by
  decide

/-- C1 (amended): every one of the four subcommand actions terminates
the process with exit code zero both on success and on any pipeline
failure; a failure is reported only by logging the failing stage's error
to the console (so drop on a never-compiled source logs its error rather
than crashing, but does not exit non-zero). -/
theorem command_action_always_exits_zero (r : CommandResult) :
    (commandAction r).exitCode = 0 ∧
    (r = CommandResult.ok → (commandAction r).logged = []) ∧
    (∀ reason, r = CommandResult.failed reason → (commandAction r).logged = [reason]) := by
  cases r with
  | ok => refine ⟨rfl, fun _ => rfl, ?_⟩; intro reason h; cases h
  | failed reason =>
    refine ⟨rfl, ?_, ?_⟩
    · intro h; cases h
    · intro reason2 h; cases h; rfl

/-- C1 witness: the amended theorem applied to the never-compiled drop
failure. -/
theorem command_action_always_exits_zero_witness :
    (commandAction dropNeverCompiledResult).exitCode = 0 ∧
    (commandAction dropNeverCompiledResult).logged = ["no artifact found"] :=
  ⟨(command_action_always_exits_zero dropNeverCompiledResult).1,
   (command_action_always_exits_zero dropNeverCompiledResult).2.2 "no artifact found" rfl⟩

/-- C6 counterexample: loading an empty config file leaves the
container-cli key with no effective value at all — it does not fall back
to the built-in default "docker". -/
theorem absent_key_does_not_fall_back :
    configLookup "container-cli" (preActionHook [] globalConfigInit) ≠ some "docker" ∧
    configLookup "container-cli" (preActionHook [] globalConfigInit) = none := by
  decide

/-- C6 (amended): the built-in defaults ("docker", "docker compose") are
only the initial value of the configuration; loading a config file
replaces the configuration wholesale, so the effective value of every
key is exactly the file's and a key absent from the file has no
effective value rather than its default. -/
theorem config_file_replaces_wholesale (fileConfig current : Config) (key : String) :
    configLookup key (preActionHook fileConfig current) = fileConfig.lookup key ∧
    configLookup "container-cli" globalConfigInit = some "docker" ∧
    configLookup "compose-cli" globalConfigInit = some "docker compose" :=
  ⟨rfl, by decide, by decide⟩

/-- C8 counterexample: the globalConfig module IS a process-wide mutable
singleton — reassigning it through `setGlobalConfig` (as the preAction
hook does on every command, after process start) changes what
`getGlobalConfig` observes. -/
theorem globalConfig_reassignment_observed :
    getGlobalConfig (setGlobalConfig [("container-cli", "podman")] globalConfigInit) ≠
      getGlobalConfig globalConfigInit := by
  decide

/-- C8 (amended): the external tool names live in the process-wide
mutable `globalConfig` binding; `setGlobalConfig`, invoked from the
preAction hook after process start, reassigns it wholesale so that every
subsequent read observes the new value, and any reassignment to a
different value is observable — the configuration is not an immutable
value threaded into the Deployer constructors. -/
theorem globalConfig_is_mutable_singleton (config current : Config)
    (h : config ≠ current) :
    getGlobalConfig (setGlobalConfig config current) = config ∧
    getGlobalConfig (setGlobalConfig config current) ≠ getGlobalConfig current :=
  ⟨rfl, fun hbad => h hbad⟩

/-- C8 witness: the amended theorem applied to reassigning the defaults
to a podman-based configuration. -/
theorem globalConfig_is_mutable_singleton_witness :
    getGlobalConfig (setGlobalConfig [("container-cli", "podman")] globalConfigInit) =
      [("container-cli", "podman")] ∧
    getGlobalConfig (setGlobalConfig [("container-cli", "podman")] globalConfigInit) ≠
      getGlobalConfig globalConfigInit :=
  globalConfig_is_mutable_singleton [("container-cli", "podman")] globalConfigInit (by decide)

/-- C4: when the stderr of any one supervised port-forward subprocess
contains the known failure phrase, the shared failure handler tree-kills
every subprocess started in the same start call — the kill log ends up
holding exactly the pids of all started siblings, and the shared list is
emptied. -/
theorem stderr_failure_stops_all_siblings (pids : List (Option Nat)) (data : String)
    (hphrase : containsChars failurePhrase.data data.data = true) :
    (PortForwardManager.stderrEvent data (PortForwardManager.start pids)).killed =
      pids.filterMap id ∧
    (PortForwardManager.stderrEvent data (PortForwardManager.start pids)).childProcesses = [] := by
  cases pids <;>
    simp [PortForwardManager.stderrEvent, PortForwardCallbacks.handleStderr, hphrase,
      PortForwardManager.onFailure, PortForwardManager.start]

/-- C4 witness: three tunnels started; the second one's stderr reports
the failure phrase; all three process trees are killed. -/
theorem stderr_failure_stops_all_siblings_witness :
    (PortForwardManager.stderrEvent "error forwarding port 8082"
      (PortForwardManager.start [some 11, some 22, some 33])).killed =
      ([some 11, some 22, some 33] : List (Option Nat)).filterMap id ∧
    (PortForwardManager.stderrEvent "error forwarding port 8082"
      (PortForwardManager.start [some 11, some 22, some 33])).childProcesses = [] :=
  stderr_failure_stops_all_siblings [some 11, some 22, some 33] "error forwarding port 8082"
    (by decide)

/-- C5 counterexample: with a single supervised tunnel, a stderr chunk
containing the failure phrase leaves the supervisor with its process
tree-killed and no running tunnel — the tunnel is torn down, not
restarted back to Running. -/
theorem failed_tunnel_is_torn_down_not_restarted :
    (PortForwardManager.stderrEvent "error forwarding port"
      (PortForwardManager.start [some 7])).childProcesses = [] ∧
    (PortForwardManager.stderrEvent "error forwarding port"
      (PortForwardManager.start [some 7])).killed = [7] := by
  decide

/-- C5 (amended): a tunnel failure triggers a full-group stop with an
operator notification and there is no automatic restart: after the
failure, every further sequence of stderr events leaves the supervisor
with no running tunnel — only a fresh call to start (by the operator)
launches tunnels again. -/
theorem no_auto_restart_after_failure (pids : List (Option Nat)) (data : String)
    (more : List String)
    (hphrase : containsChars failurePhrase.data data.data = true) :
    (PortForwardManager.applyEvents more
      (PortForwardManager.stderrEvent data (PortForwardManager.start pids))).childProcesses =
      [] := by
  rw [applyEvents_empty_stable more _ (stderrEvent_start_empties pids data hphrase)]
  exact stderrEvent_start_empties pids data hphrase

/-- C5 witness: one tunnel, a failing stderr chunk, then two further
stderr events; no tunnel is ever running again. -/
theorem no_auto_restart_after_failure_witness :
    (PortForwardManager.applyEvents ["restarting", "error forwarding port"]
      (PortForwardManager.stderrEvent "error forwarding port"
        (PortForwardManager.start [some 7]))).childProcesses = [] :=
  no_auto_restart_after_failure [some 7] "error forwarding port"
    ["restarting", "error forwarding port"] (by decide)

/-- C10: the full-group stop runs at most once per start call: the first
triggering failure empties the shared process list, so every further
stderr event — whether or not it contains the failure phrase — leaves
the supervisor state (in particular the kill log) entirely unchanged. -/
theorem group_stop_runs_at_most_once (pids : List (Option Nat)) (data : String)
    (more : List String)
    (hphrase : containsChars failurePhrase.data data.data = true) :
    PortForwardManager.applyEvents more
      (PortForwardManager.stderrEvent data (PortForwardManager.start pids)) =
      PortForwardManager.stderrEvent data (PortForwardManager.start pids) :=
  applyEvents_empty_stable more _ (stderrEvent_start_empties pids data hphrase)

/-- C10 witness: two tunnels, a failing stderr chunk, then another
failing chunk and a benign one; the state after the first failure is
final. -/
theorem group_stop_runs_at_most_once_witness :
    PortForwardManager.applyEvents ["error forwarding port", "ok"]
      (PortForwardManager.stderrEvent "error forwarding port"
        (PortForwardManager.start [some 1, some 2])) =
      PortForwardManager.stderrEvent "error forwarding port"
        (PortForwardManager.start [some 1, some 2]) :=
  group_stop_runs_at_most_once [some 1, some 2] "error forwarding port"
    ["error forwarding port", "ok"] (by decide)

end Microzoo
